import Mathlib

/-!
Verification of the Tool Reliability Tracking and Analysis subsystem of the
claude-wm-cli repository, a shallow embedding of
`src/.claude-wm/system/hooks/mcp-tool-tracker.py` and
`src/.claude-wm/runtime/hooks/tool-reliability-analyzer.py`.

Python dicts are modelled as association lists in insertion order; Python
floats as rationals; fallible file writes as `Except`-valued steps driven by
explicit writability flags of an abstract file-system state.
-/

namespace WMTrack

/-! ### Association-list model of Python dicts (insertion-ordered) -/

/-- Lookup in a Python dict, `d.get(k)` / `k in d`. -/
def dget? {α : Type} (m : List (String × α)) (k : String) : Option α :=
  match m.find? (fun p => p.1 == k) with
  | some p => some p.2
  | none => none

/-- Lookup with default 0, modelling `d.get(k, 0)` for counter dicts. -/
def dgetN (m : List (String × Nat)) (k : String) : Nat :=
  (dget? m k).getD 0

/-- Python dict assignment `d[k] = v`: replaces in place if the key is
present (keeping its position), else appends at the end. -/
def dset {α : Type} : List (String × α) → String → α → List (String × α)
  | [], k, v => [(k, v)]
  | (k2, v2) :: t, k, v =>
      if k2 == k then (k, v) :: t else (k2, v2) :: dset t k v

/-- `d[k] = d.get(k, 0) + 1` on a counter dict. -/
def dinc (m : List (String × Nat)) (k : String) : List (String × Nat) :=
  dset m k (dgetN m k + 1)

/-- `d[k] = d.get(k, 0) + n` on a counter dict (defaultdict(int) increment). -/
def daddN (m : List (String × Nat)) (k : String) (n : Nat) : List (String × Nat) :=
  dset m k (dgetN m k + n)

/-- `defaultdict(list)` append: `d[k].append(v)`. -/
def dappend {α : Type} (m : List (String × List α)) (k : String) (v : α) :
    List (String × List α) :=
  dset m k (((dget? m k).getD []) ++ [v])

/-- The keys of a dict, in insertion order. -/
def dkeys {α : Type} (m : List (String × α)) : List String :=
  m.map (fun p => p.1)

/-- `k in d`. -/
def dmem {α : Type} (m : List (String × α)) (k : String) : Bool :=
  (dget? m k).isSome

/-! ### String helpers modelling Python primitives -/

/-- Substring test on character lists (Python `pat in s`). -/
def listContainsSub (pat : List Char) : List Char → Bool
  | [] => pat.isEmpty
  | c :: t => pat.isPrefixOf (c :: t) || listContainsSub pat t

/-- Python `pat in s` on strings: substring containment. -/
def strContains (s pat : String) : Bool :=
  listContainsSub pat.data s.data

/-- Python `s.lower()` for the ASCII strings handled here, written over the
character list so that it evaluates by reduction. -/
def pyLower (s : String) : String :=
  ⟨s.data.map Char.toLower⟩

/-- Python `s.startswith(pre)`, written over the character lists so that it
evaluates by reduction. -/
def pyStartsWith (s pre : String) : Bool :=
  pre.data.isPrefixOf s.data

/-- Python `l[-n:]`: the last `n` elements (whole list when shorter). -/
def takeLast {α : Type} (n : Nat) (l : List α) : List α :=
  l.drop (l.length - n)

/-- Renders a latency value the way the f-string in the tracker renders the
parsed float (integral floats print with a trailing `.0`). -/
def pyFloatRepr (q : ℚ) : String :=
  if q.den = 1 then toString q.num ++ ".0" else toString q

/-- Models Python `'{:.1%}'` formatting of the nonnegative rates that occur
here: one decimal of the percentage, rounding half away from zero
(Python itself rounds half to even; the difference does not matter for any
claim, only determinism of the rendering does). -/
def formatPct (q : ℚ) : String :=
  let n : Int := ⌊q * 1000 + 1 / 2⌋
  toString (n / 10) ++ "." ++ toString (n % 10) ++ "%"

/-- Renders a rational the way Python f-strings render the float, for the
non-percent numeric interpolations; only determinism matters for the claims. -/
def pyNumRepr (q : ℚ) : String :=
  pyFloatRepr q

/-! ### ToolStats: the per-tool record of the Statistics Store
(mcp-tool-tracker.py, update_mcp_stats lines 49-63) -/

structure ToolStats where
  total_calls : Nat
  successful_calls : Nat
  failed_calls : Nat
  success_rate : ℚ
  average_response_time : ℚ
  total_response_time : ℚ
  common_errors : List (String × Nat)
  last_updated : String
  reliability_score : ℚ
  trend : String
  error_patterns : List (String × Nat)
  performance_category : String
deriving Repr, DecidableEq

/-- The zero-initialized record created when a tool is first seen
(mcp-tool-tracker.py lines 50-63). -/
def initToolStats : ToolStats :=
  { total_calls := 0
    successful_calls := 0
    failed_calls := 0
    success_rate := 0
    average_response_time := 0
    total_response_time := 0
    common_errors := []
    last_updated := ""
    reliability_score := 0
    trend := "stable"
    error_patterns := []
    performance_category := "normal" }

/-- categorize_error (mcp-tool-tracker.py lines 120-143): buckets raw error
text into the fixed taxonomy by lowercased substring tests, first match wins,
and increments that bucket of the error_patterns counter dict. -/
def categorize_error (patterns : List (String × Nat)) (error_output : String) :
    List (String × Nat) :=
  let e := pyLower error_output
  if strContains e "timeout" then dinc patterns "timeout"
  else if strContains e "permission" || strContains e "unauthorized" then
    dinc patterns "permission"
  else if strContains e "network" || strContains e "connection" then
    dinc patterns "network"
  else if strContains e "rate limit" then dinc patterns "rate_limit"
  else if strContains e "invalid" || strContains e "malformed" then
    dinc patterns "invalid_input"
  else if strContains e "not found" then dinc patterns "not_found"
  else dinc patterns "other"

/-- calculate_performance_factor (mcp-tool-tracker.py lines 145-156). -/
def calculate_performance_factor (avg_time : ℚ) : ℚ :=
  if avg_time < 500 then 20
  else if avg_time < 1000 then 15
  else if avg_time < 2000 then 10
  else if avg_time < 5000 then 5
  else 0

/-- calculate_stability_factor (mcp-tool-tracker.py lines 158-167). -/
def calculate_stability_factor (total_calls : Nat) : ℚ :=
  if total_calls > 20 then 10
  else if total_calls > 10 then 7
  else if total_calls > 5 then 5
  else total_calls

/-- The per-tool mutation performed by update_mcp_stats
(mcp-tool-tracker.py lines 65-114), written as the net record after the
sequential field assignments of the source. -/
def update_tool_stats (ts : ToolStats) (success : Bool) (response_time : ℚ)
    (error_output : String) (now_iso : String) : ToolStats :=
  -- lines 66-67
  let total_calls := ts.total_calls + 1
  let total_response_time := ts.total_response_time + response_time
  -- lines 69-82
  let successful_calls :=
    if success then ts.successful_calls + 1 else ts.successful_calls
  let failed_calls :=
    if success then ts.failed_calls else ts.failed_calls + 1
  let common_errors :=
    if success then ts.common_errors
    else if error_output = "" then ts.common_errors
    else dinc ts.common_errors ((error_output.take 50).trim)
  let error_patterns :=
    if success then ts.error_patterns
    else if error_output = "" then ts.error_patterns
    else categorize_error ts.error_patterns error_output
  -- lines 84-86
  let success_rate : ℚ := (successful_calls : ℚ) / (total_calls : ℚ)
  let average_response_time : ℚ := total_response_time / (total_calls : ℚ)
  -- lines 88-93
  let reliability_score :=
    success_rate * 70 + calculate_performance_factor average_response_time
      + calculate_stability_factor total_calls
  -- lines 96-104
  let performance_category :=
    if average_response_time < 500 then "fast"
    else if average_response_time < 2000 then "normal"
    else if average_response_time < 5000 then "slow"
    else "very_slow"
  -- lines 106-114
  let trend :=
    if total_calls ≥ 10 then
      let recent_success_rate : ℚ := (successful_calls : ℚ) / (total_calls : ℚ)
      if recent_success_rate > 0.9 then "improving"
      else if recent_success_rate < 0.7 then "declining"
      else "stable"
    else ts.trend
  { total_calls := total_calls
    successful_calls := successful_calls
    failed_calls := failed_calls
    success_rate := success_rate
    average_response_time := average_response_time
    total_response_time := total_response_time
    common_errors := common_errors
    last_updated := now_iso
    reliability_score := reliability_score
    trend := trend
    error_patterns := error_patterns
    performance_category := performance_category }

/-- One update request to a given tool (arguments of update_mcp_stats that
vary per call). -/
structure UpdateArgs where
  success : Bool
  response_time : ℚ
  error_output : String
  now_iso : String
deriving Repr, DecidableEq

/-- A sequence of updates applied to one ToolStats record. -/
def apply_updates (ts : ToolStats) (l : List UpdateArgs) : ToolStats :=
  l.foldl
    (fun s a => update_tool_stats s a.success a.response_time a.error_output a.now_iso)
    ts

/-- The Statistics Store level of update_mcp_stats (lines 48-65 and 117):
look up or create the zero-initialized record for the tool, mutate it, and
store it back under the tool name. -/
def update_stats_map (stats : List (String × ToolStats)) (tool_name : String)
    (success : Bool) (response_time : ℚ) (error_output : String)
    (now_iso : String) : List (String × ToolStats) :=
  let ts0 := (dget? stats tool_name).getD initToolStats
  dset stats tool_name (update_tool_stats ts0 success response_time error_output now_iso)

/-! ### generate_mcp_recommendations (mcp-tool-tracker.py lines 169-260) -/

structure UnreliableTool where
  tool : String
  success_rate : ℚ
  common_errors : List String
  error_patterns : List (String × Nat)
  suggestion : String
deriving Repr, DecidableEq

structure SlowTool where
  tool : String
  avg_time : ℚ
  performance_category : String
  suggestion : String
deriving Repr, DecidableEq

structure BestPractice where
  success_rate : ℚ
  avg_time : ℚ
  notes : String
deriving Repr, DecidableEq

structure ErrorInsight where
  failure_rate : ℚ
  most_common_errors : List (String × Nat)
  error_patterns : List (String × Nat)
deriving Repr, DecidableEq

/-- The recommendations document written to the analysis file
(mcp-tool-tracker.py lines 180-188); `alternatives` and `usage_patterns`
stay empty dicts in the source and are modelled as `Unit`. -/
structure McpRecommendations where
  unreliable_tools : List UnreliableTool
  slow_tools : List SlowTool
  alternatives : Unit
  usage_patterns : Unit
  best_practices : List (String × BestPractice)
  error_insights : List (String × ErrorInsight)
  generated_at : String
deriving Repr, DecidableEq

/-- generate_tool_suggestion (lines 234-247): first matching prefix of the
fixed table wins, else the generic advice. -/
def generate_tool_suggestion (tool : String) : String :=
  if pyStartsWith tool "mcp__github__" then
    "Check GitHub token permissions and rate limits"
  else if pyStartsWith tool "mcp__playwright__" then
    "Ensure browser dependencies are installed"
  else if pyStartsWith tool "mcp_mem0__" then
    "Check memory storage permissions and disk space"
  else if pyStartsWith tool "mcp__time__" then
    "Check timezone data and system time settings"
  else "Review tool configuration and error patterns"

/-- generate_performance_suggestion (lines 249-260). -/
def generate_performance_suggestion (tool : String) : String :=
  if strContains tool "github" then
    "Consider using GraphQL API or reducing payload size"
  else if strContains tool "aws" then
    "Check AWS region settings and service limits"
  else if strContains tool "playwright" then
    "Consider headless mode or reduced wait times"
  else if strContains tool "memory" then
    "Consider batch operations or data optimization"
  else "Review parameters and consider alternative approaches"

/-- Python `sorted(l, key=lambda x: x[1], reverse=True)` on counter items:
stable descending sort by count. -/
def sortByCountDesc (l : List (String × Nat)) : List (String × Nat) :=
  l.mergeSort (fun a b => decide (b.2 ≤ a.2))

/-- The body of generate_mcp_recommendations (lines 180-232) as a pure
function of the loaded statistics: one pass over the store accumulating the
four lists/dicts. -/
def generate_mcp_recommendations (stats : List (String × ToolStats))
    (now_iso : String) : McpRecommendations :=
  stats.foldl
    (fun recs p =>
      let tool := p.1
      let data := p.2
      let unrel : UnreliableTool :=
        { tool := tool
          success_rate := data.success_rate
          common_errors := (dkeys data.common_errors).take 3
          error_patterns := data.error_patterns
          suggestion := generate_tool_suggestion tool }
      let slow : SlowTool :=
        { tool := tool
          avg_time := data.average_response_time
          performance_category := data.performance_category
          suggestion := generate_performance_suggestion tool }
      let bp : BestPractice :=
        { success_rate := data.success_rate
          avg_time := data.average_response_time
          notes := "Highly reliable tool with " ++ formatPct data.success_rate
            ++ " success rate" }
      let insight : ErrorInsight :=
        { failure_rate := (data.failed_calls : ℚ) / (data.total_calls : ℚ)
          most_common_errors := (sortByCountDesc data.common_errors).take 3
          error_patterns := data.error_patterns }
      let recs :=
        if data.success_rate < 0.8 ∧ data.total_calls > 3 then
          { recs with unreliable_tools := recs.unreliable_tools ++ [unrel] }
        else recs
      let recs :=
        if data.average_response_time > 3000 then
          { recs with slow_tools := recs.slow_tools ++ [slow] }
        else recs
      let recs :=
        if data.success_rate > 0.95 ∧ data.total_calls > 5 then
          { recs with best_practices := dset recs.best_practices tool bp }
        else recs
      if data.failed_calls > 0 then
        { recs with error_insights := dset recs.error_insights tool insight }
      else recs)
    { unreliable_tools := []
      slow_tools := []
      alternatives := ()
      usage_patterns := ()
      best_practices := []
      error_insights := []
      generated_at := now_iso }

/-! ### The Execution Recorder and the tracker entry point
(mcp-tool-tracker.py lines 24-33 and 262-315) -/

/-- The log line appended by log_mcp_execution (lines 26-33). -/
def log_entry (now_ts session_id tool_name : String) (success : Bool)
    (response_time : ℚ) (error_output : String) : String :=
  let status := if success then "SUCCESS" else "FAILURE"
  let error_snippet := if error_output = "" then "" else error_output.take 100
  "[" ++ now_ts ++ "] [" ++ session_id ++ "] " ++ tool_name ++ " " ++ status
    ++ " " ++ pyFloatRepr response_time ++ "ms " ++ error_snippet ++ "\n"

/-- The recent-failure count of the alert check (lines 292-298): among the
last 10 log lines, those containing both the tool name and FAILURE as
substrings. -/
def recent_failure_count (log_lines : List String) (tool_name : String) : Nat :=
  ((takeLast 10 log_lines).filter
    (fun line => strContains line tool_name && strContains line "FAILURE")).length

/-- The stderr warnings of the alert block (lines 290-315): when the
invocation failed and the recent-failure count reaches 3, one warning line,
plus a suggestion line when the analysis file is readable and lists the tool
among the unreliable ones. -/
def alert_warnings (success : Bool) (log_lines : List String)
    (analysis_file : Option McpRecommendations) (tool_name : String) :
    List String :=
  if success then []
  else
    let recent_failures := recent_failure_count log_lines tool_name
    if recent_failures ≥ 3 then
      let warn := "⚠️  WARNING: " ++ tool_name ++ " has failed "
        ++ toString recent_failures ++ " times recently"
      match analysis_file with
      | none => [warn]
      | some an =>
          match an.unreliable_tools.find? (fun u => u.tool == tool_name) with
          | some u => [warn, "💡 Suggestion: " ++ u.suggestion]
          | none => [warn]
    else []

/-- The files the tracker touches, plus writability flags that drive the
fallible write steps (an OSError raised by `open`/`write`). A `none` stats or
analysis file models an absent or unparsable file. -/
structure TrackerWorld where
  log_lines : List String
  stats_file : Option (List (String × ToolStats))
  analysis_file : Option McpRecommendations
  log_writable : Bool
  stats_writable : Bool
  analysis_writable : Bool
deriving Repr, DecidableEq

/-- main of mcp-tool-tracker.py (lines 262-315). The five argv values arrive
pre-split (the latency already parsed); `argc` is `len(sys.argv)`. A normal
return is `.ok (world, exit_code, stderr_warnings)`; `.error ()` is an
exception that escapes main uncaught, which terminates the interpreter with a
traceback and a non-zero status. Reads of the stats and analysis files are
wrapped in try/except in the source and are modelled by the `Option` fields;
the three file writes are not wrapped, so a failed write escapes. -/
def tracker_main (argc : Nat) (tool_name success_arg : String)
    (response_time : ℚ) (error_arg session_id : String)
    (now_ts now_iso : String) (w : TrackerWorld) :
    Except Unit (TrackerWorld × Nat × List String) :=
  if argc < 6 then .ok (w, 1, [])
  else
    let success := pyLower success_arg == "true"
    let error_output := if error_arg = "None" then "" else error_arg
    if ¬ pyStartsWith tool_name "mcp__" then .ok (w, 0, [])
    else if ¬ w.log_writable then .error ()
    else
      let w1 := { w with log_lines := w.log_lines ++
        [log_entry now_ts session_id tool_name success response_time error_output] }
      if ¬ w1.stats_writable then .error ()
      else
        let stats1 := update_stats_map (w1.stats_file.getD []) tool_name success
          response_time error_output now_iso
        let w2 := { w1 with stats_file := some stats1 }
        let recStep : Except Unit TrackerWorld :=
          if w2.log_lines.length % 10 = 0 then
            match w2.stats_file with
            | none => .ok w2
            | some st =>
                if w2.analysis_writable then
                  let w2b :=
                    { w2 with analysis_file := some (generate_mcp_recommendations st now_iso) }
                  .ok w2b
                else .error ()
          else .ok w2
        match recStep with
        | .error e => .error e
        | .ok w3 =>
            .ok (w3, 0, alert_warnings success w3.log_lines w3.analysis_file tool_name)

/-- The stderr warnings of a tracker run that terminated normally. -/
def warnOf (r : Except Unit (TrackerWorld × Nat × List String)) : List String :=
  match r with
  | .ok (_, _, ws) => ws
  | .error _ => []

/-! ### tool-reliability-analyzer.py: data model -/

/-- A per-tool statistics record as read back from a stats JSON file by the
analyzer. The analyzer accesses every field through `.get` with a default,
so each scalar field is optional; the two counter dicts default to empty. -/
structure RawStats where
  total_calls : Option Nat
  total_executions : Option Nat
  success_rate : Option ℚ
  average_response_time : Option ℚ
  average_execution_time : Option ℚ
  common_errors : List (String × Nat)
  error_patterns : List (String × Nat)
  trend : Option String
  reliability_score : Option ℚ
  last_updated : Option String
deriving Repr, DecidableEq

/-- The per-tool entry of the merged `all_tools` dict
(tool-reliability-analyzer.py lines 61-77). -/
structure ToolData where
  type_ : String
  stats : RawStats
  category : String
deriving Repr, DecidableEq

/-- The keyword table of categorize_bash_tool (lines 113-122), in source
order. -/
def bash_tool_categories : List (String × List String) :=
  [("file_operations", ["ls", "find", "cat", "grep", "rg", "fd", "bat", "exa"]),
   ("git_operations", ["git"]),
   ("package_management", ["npm", "pip", "brew", "apt"]),
   ("system_operations", ["chmod", "mkdir", "rm", "mv", "cp", "pwd"]),
   ("process_management", ["ps", "kill", "top", "htop"]),
   ("network_operations", ["curl", "wget", "ping", "ssh"]),
   ("text_processing", ["sed", "awk", "sort", "uniq", "wc"]),
   ("development", ["node", "python", "java", "make", "docker"])]

/-- categorize_bash_tool (lines 111-128): first category whose tool list
contains the name, else other. -/
def categorize_bash_tool (tool : String) : String :=
  match bash_tool_categories.find? (fun p => p.2.contains tool) with
  | some p => p.1
  | none => "other"

/-- categorize_mcp_tool (lines 130-147). -/
def categorize_mcp_tool (tool : String) : String :=
  if pyStartsWith tool "mcp__github__" then "source_control"
  else if pyStartsWith tool "mcp__aws__" then "cloud_services"
  else if pyStartsWith tool "mcp__playwright__" then "browser_automation"
  else if pyStartsWith tool "mcp_mem0__" then "data_storage"
  else if pyStartsWith tool "mcp__time__" then "utilities"
  else if pyStartsWith tool "mcp__consult7__" then "ai_services"
  else if pyStartsWith tool "mcp__sequential-thinking__" then "ai_services"
  else "other"

/-- Merging the two stats families into all_tools (lines 61-77): bash tools
first, then MCP tools, each keyed by name. -/
def build_all_tools (bash_stats mcp_stats : List (String × RawStats)) :
    List (String × ToolData) :=
  let withBash := bash_stats.foldl
    (fun acc p => dset acc p.1
      { type_ := "bash", stats := p.2, category := categorize_bash_tool p.1 })
    []
  mcp_stats.foldl
    (fun acc p => dset acc p.1
      { type_ := "mcp", stats := p.2, category := categorize_mcp_tool p.1 })
    withBash

/-- The usage count the analyzer attributes to a tool:
`stats.get('total_executions', 0) + stats.get('total_calls', 0)`. -/
def usage_count (s : RawStats) : Nat :=
  s.total_executions.getD 0 + s.total_calls.getD 0

/-- The latency the analyzer attributes to a tool (lines 236-237, 309-310):
average_response_time for mcp tools, average_execution_time for bash tools. -/
def avg_time_of (td : ToolData) : ℚ :=
  if td.type_ == "mcp" then td.stats.average_response_time.getD 0
  else td.stats.average_execution_time.getD 0

/-! ### analyze_ecosystem_health (lines 149-178) -/

structure EcosystemHealth where
  total_tools : Nat
  reliable_tools : Nat
  unreliable_tools : Nat
  health_score : ℚ
  health_category : String
deriving Repr, DecidableEq

/-- get_health_category (lines 167-178). -/
def get_health_category (score : ℚ) : String :=
  if score ≥ 90 then "excellent"
  else if score ≥ 80 then "good"
  else if score ≥ 70 then "fair"
  else if score ≥ 60 then "poor"
  else "critical"

/-- analyze_ecosystem_health (lines 149-165). -/
def analyze_ecosystem_health (all_tools : List (String × ToolData)) :
    EcosystemHealth :=
  let total_tools := all_tools.length
  let reliable_tools :=
    (all_tools.filter (fun p => decide (p.2.stats.success_rate.getD 0 > 0.8))).length
  let unreliable_tools :=
    (all_tools.filter (fun p => decide (p.2.stats.success_rate.getD 0 < 0.5))).length
  let health_score : ℚ :=
    if total_tools > 0 then (reliable_tools : ℚ) / (total_tools : ℚ) * 100 else 0
  { total_tools := total_tools
    reliable_tools := reliable_tools
    unreliable_tools := unreliable_tools
    health_score := health_score
    health_category := get_health_category health_score }

/-! ### create_reliability_tiers (lines 180-224) -/

structure TierEntry where
  tool : String
  success_rate : ℚ
  type_ : String
deriving Repr, DecidableEq

structure ReliabilityTiers where
  tier_1_excellent : List TierEntry
  tier_2_good : List TierEntry
  tier_3_fair : List TierEntry
  tier_4_poor : List TierEntry
  tier_5_critical : List TierEntry
deriving Repr, DecidableEq

/-- The tier entry appended for one tool (lines 194-222). -/
def tier_entry_of (tool_name : String) (td : ToolData) : TierEntry :=
  { tool := tool_name
    success_rate := td.stats.success_rate.getD 0
    type_ := td.type_ }

/-- The per-tool step of the loop in create_reliability_tiers
(lines 190-222): append the entry to the bucket selected by the fixed
success-rate thresholds. -/
def tier_insert (tiers : ReliabilityTiers) (tool_name : String) (td : ToolData) :
    ReliabilityTiers :=
  let success_rate := td.stats.success_rate.getD 0
  let e := tier_entry_of tool_name td
  if success_rate ≥ 0.95 then
    { tiers with tier_1_excellent := tiers.tier_1_excellent ++ [e] }
  else if success_rate ≥ 0.85 then
    { tiers with tier_2_good := tiers.tier_2_good ++ [e] }
  else if success_rate ≥ 0.70 then
    { tiers with tier_3_fair := tiers.tier_3_fair ++ [e] }
  else if success_rate ≥ 0.50 then
    { tiers with tier_4_poor := tiers.tier_4_poor ++ [e] }
  else
    { tiers with tier_5_critical := tiers.tier_5_critical ++ [e] }

/-- create_reliability_tiers (lines 180-224). -/
def create_reliability_tiers (all_tools : List (String × ToolData)) :
    ReliabilityTiers :=
  all_tools.foldl (fun acc p => tier_insert acc p.1 p.2)
    { tier_1_excellent := []
      tier_2_good := []
      tier_3_fair := []
      tier_4_poor := []
      tier_5_critical := [] }

/-! ### categorize_tools (lines 226-240) -/

structure CatEntry where
  tool : String
  type_ : String
  success_rate : ℚ
  avg_time : ℚ
deriving Repr, DecidableEq

/-- categorize_tools (lines 226-240): group entry records by functional
category (defaultdict(list) in first-insertion order). -/
def categorize_tools (all_tools : List (String × ToolData)) :
    List (String × List CatEntry) :=
  all_tools.foldl
    (fun acc p =>
      let e : CatEntry :=
        { tool := p.1
          type_ := p.2.type_
          success_rate := p.2.stats.success_rate.getD 0
          avg_time := avg_time_of p.2 }
      dappend acc p.2.category e)
    []

/-! ### analyze_usage_patterns (lines 242-295) -/

structure UsageEntry where
  tool : String
  usage_count : Nat
  type_ : String
deriving Repr, DecidableEq

structure BashVsMcp where
  bash_usage : Nat
  mcp_usage : Nat
  mcp_adoption_rate : ℚ
deriving Repr, DecidableEq

/-- analyze_usage_patterns result; `time_patterns` stays an empty dict in the
source and is modelled as `Unit`. -/
structure UsagePatterns where
  most_used_tools : List UsageEntry
  least_used_tools : List UsageEntry
  bash_vs_mcp_usage : BashVsMcp
  category_usage : List (String × Nat)
  time_patterns : Unit
deriving Repr, DecidableEq

/-- Python `sorted(items, key=usage, reverse=True)`: stable descending sort
by usage count (lines 253-256). -/
def sort_by_usage_desc (all_tools : List (String × ToolData)) :
    List (String × ToolData) :=
  all_tools.mergeSort (fun a b => decide (usage_count b.2.stats ≤ usage_count a.2.stats))

/-- analyze_usage_patterns (lines 242-295). -/
def analyze_usage_patterns (all_tools : List (String × ToolData)) :
    UsagePatterns :=
  let sorted_tools := sort_by_usage_desc all_tools
  let entry := fun (p : String × ToolData) =>
    ({ tool := p.1, usage_count := usage_count p.2.stats, type_ := p.2.type_ } : UsageEntry)
  let bash_usage : Nat := ((all_tools.filter (fun p => p.2.type_ == "bash")).map
    (fun p => p.2.stats.total_executions.getD 0)).sum
  let mcp_usage : Nat := ((all_tools.filter (fun p => p.2.type_ == "mcp")).map
    (fun p => p.2.stats.total_calls.getD 0)).sum
  let adoption : ℚ :=
    if bash_usage + mcp_usage > 0 then
      (mcp_usage : ℚ) / ((bash_usage : ℚ) + (mcp_usage : ℚ))
    else 0
  { most_used_tools := (sorted_tools.take 10).map entry
    least_used_tools := (takeLast 10 sorted_tools).map entry
    bash_vs_mcp_usage :=
      { bash_usage := bash_usage
        mcp_usage := mcp_usage
        mcp_adoption_rate := adoption }
    category_usage := all_tools.foldl
      (fun acc p => daddN acc p.2.category (usage_count p.2.stats)) []
    time_patterns := () }

/-! ### analyze_performance (lines 297-340) -/

structure PerfEntry where
  tool : String
  avg_time : ℚ
  type_ : String
  category : String
deriving Repr, DecidableEq

structure CatPerf where
  avg_time : ℚ
  min_time : ℚ
  max_time : ℚ
  tool_count : Nat
deriving Repr, DecidableEq

/-- analyze_performance result; `performance_recommendations` stays an empty
list in the source. -/
structure PerformanceInsights where
  fastest_tools : List PerfEntry
  slowest_tools : List PerfEntry
  performance_by_category : List (String × CatPerf)
  performance_recommendations : List String
deriving Repr, DecidableEq

/-- The per-category latency summary (lines 332-338); the grouping never
creates an empty list, so the empty case is unreachable. -/
def cat_perf_of (times : List ℚ) : CatPerf :=
  match times with
  | [] => { avg_time := 0, min_time := 0, max_time := 0, tool_count := 0 }
  | h :: t =>
      { avg_time := (times.foldl (· + ·) 0) / (times.length : ℚ)
        min_time := t.foldl min h
        max_time := t.foldl max h
        tool_count := times.length }

/-- analyze_performance (lines 297-340). -/
def analyze_performance (all_tools : List (String × ToolData)) :
    PerformanceInsights :=
  let timed_tools := (all_tools.filter (fun p => decide (avg_time_of p.2 > 0))).map
    (fun p => ({ tool := p.1, avg_time := avg_time_of p.2, type_ := p.2.type_,
                 category := p.2.category } : PerfEntry))
  let sorted := timed_tools.mergeSort (fun a b => decide (a.avg_time ≤ b.avg_time))
  let by_cat := sorted.foldl (fun acc e => dappend acc e.category e.avg_time) []
  { fastest_tools := sorted.take 10
    slowest_tools := takeLast 10 sorted
    performance_by_category := by_cat.map (fun p => (p.1, cat_perf_of p.2))
    performance_recommendations := [] }

/-! ### analyze_error_correlations (lines 342-390) -/

structure ErrEntry where
  tool : String
  error : String
  count : Nat
  type_ : String
deriving Repr, DecidableEq

structure SystemicIssue where
  error : String
  affected_tools : List String
  severity : String
deriving Repr, DecidableEq

/-- analyze_error_correlations result; `error_trends` stays an empty dict. -/
structure ErrorCorrelations where
  common_error_patterns : List (String × Nat)
  tools_with_similar_errors : List (String × List String)
  error_trends : Unit
  systemic_issues : List SystemicIssue
deriving Repr, DecidableEq

/-- The distinct elements of `l` in first-occurrence order: the contents of
Python `set(l)` (its length is `len(set(l))`). -/
def pyDistinct (l : List String) : List String :=
  l.foldl (fun acc x => if acc.contains x then acc else acc ++ [x]) []

/-- Python `list(set(l))` on strings: the distinct elements of `l`,
enumerated in the iteration order of the set. That order depends on the
string-hash randomization of the running interpreter process, so it is not a
function of `l` alone: it is passed in as `setOrder`, one fixed enumeration
order per process, and any permutation of the distinct elements is a
possible order for some hash seed. -/
def pysetList (setOrder : List String → List String) (l : List String) :
    List String :=
  setOrder (pyDistinct l)

/-- analyze_error_correlations (lines 342-390), parametrized by the
set-iteration order of the running process (used by `list(set(tools))` on
line 376). -/
def analyze_error_correlations (setOrder : List String → List String)
    (all_tools : List (String × ToolData)) :
    ErrorCorrelations :=
  let all_errors : List ErrEntry := all_tools.flatMap
    (fun p => p.2.stats.common_errors.map
      (fun e => { tool := p.1, error := e.1, count := e.2, type_ := p.2.type_ }))
  let error_counter := all_errors.foldl (fun acc e => dinc acc e.error) []
  let error_groups := all_errors.foldl (fun acc e => dappend acc e.error e.tool) []
  let similar := (error_groups.filter
      (fun p => decide ((pyDistinct p.2).length > 1))).map
    (fun p => (p.1, pysetList setOrder p.2))
  { common_error_patterns := (sortByCountDesc error_counter).take 10
    tools_with_similar_errors := similar
    error_trends := ()
    systemic_issues := (similar.filter (fun p => decide (p.2.length ≥ 3))).map
      (fun p =>
        { error := p.1
          affected_tools := p.2
          severity := if p.2.length > 5 then "high" else "medium" }) }

/-! ### generate_adaptive_recommendations (lines 392-477) -/

structure ImmediateAction where
  action : String
  priority : String
  reason : String
  suggestion : String
deriving Repr, DecidableEq

structure Substitution where
  alternative : String
  reason : String
deriving Repr, DecidableEq

structure OptimizationOpp where
  tool : String
  current_time : ℚ
  suggestion : String
deriving Repr, DecidableEq

structure HabitChange where
  habit : String
  reason : String
  suggestion : String
deriving Repr, DecidableEq

structure SystemImprovement where
  improvement : String
  current_score : ℚ
  suggestion : String
deriving Repr, DecidableEq

structure Recommendations where
  immediate_actions : List ImmediateAction
  tool_substitutions : List (String × Substitution)
  optimization_opportunities : List OptimizationOpp
  habit_changes : List HabitChange
  system_improvements : List SystemImprovement
deriving Repr, DecidableEq

/-- An all-defaults record for the unreachable `all_tools[tool]` miss
(tier entries always come from all_tools). -/
def emptyRawStats : RawStats :=
  { total_calls := none
    total_executions := none
    success_rate := none
    average_response_time := none
    average_execution_time := none
    common_errors := []
    error_patterns := []
    trend := none
    reliability_score := none
    last_updated := none }

/-- get_tool_fix_suggestion (lines 458-465). -/
def get_tool_fix_suggestion (tool_name : String) (td : ToolData) : String :=
  if td.type_ == "bash" then
    "Check " ++ tool_name ++ " installation and permissions"
  else if pyStartsWith tool_name "mcp__github__" then
    "Verify GitHub token and API limits"
  else "Review tool configuration and error logs"

/-- get_optimization_suggestion (lines 467-477). -/
def get_optimization_suggestion (category : String) : String :=
  if category == "file_operations" then
    "Consider using modern alternatives like fd, rg, or bat"
  else if category == "source_control" then
    "Use batch operations or reduce payload size"
  else if category == "cloud_services" then
    "Check network connectivity and service regions"
  else if category == "browser_automation" then
    "Use headless mode or reduce wait times"
  else if category == "ai_services" then
    "Consider caching responses or reducing context size"
  else "Review parameters and consider alternative approaches"

/-- The fixed substitution table (lines 413-418), in source order. -/
def substitution_table : List (String × String) :=
  [("find", "fd"), ("grep", "rg"), ("cat", "bat"), ("ls", "exa")]

/-- generate_adaptive_recommendations (lines 392-456); the analysis fields it
reads are passed piecewise. -/
def generate_adaptive_recommendations (all_tools : List (String × ToolData))
    (tiers : ReliabilityTiers) (usage : UsagePatterns)
    (perf : PerformanceInsights) (health : EcosystemHealth) :
    Recommendations :=
  let immediate := tiers.tier_5_critical.map
    (fun td =>
      { action := "Investigate " ++ td.tool ++ " failures"
        priority := "high"
        reason := "Success rate: " ++ formatPct td.success_rate
        suggestion := get_tool_fix_suggestion td.tool
          ((dget? all_tools td.tool).getD
            { type_ := "", stats := emptyRawStats, category := "" }) })
  let subs := substitution_table.foldl
    (fun acc p =>
      match dget? all_tools p.1 with
      | none => acc
      | some td =>
          if td.stats.success_rate.getD 1 < 0.8 then
            dset acc p.1
              { alternative := p.2
                reason := "Current success rate: "
                  ++ formatPct (td.stats.success_rate.getD 0) }
          else acc)
    []
  let slow := perf.slowest_tools.filter (fun t => decide (t.avg_time > 2000))
  let opts := slow.map
    (fun t =>
      { tool := t.tool
        current_time := t.avg_time
        suggestion := get_optimization_suggestion t.category })
  let habit :=
    if usage.bash_vs_mcp_usage.mcp_adoption_rate < 0.3 then
      [{ habit := "Increase MCP tool usage"
         reason := "Current MCP adoption: "
           ++ formatPct usage.bash_vs_mcp_usage.mcp_adoption_rate
         suggestion :=
           "Consider using MCP equivalents for git, file operations, and cloud services" }]
    else []
  let sys_imp :=
    if health.health_score < 80 then
      [{ improvement := "Overall tool reliability"
         current_score := health.health_score
         suggestion := "Focus on fixing tools in tier 4 and 5 reliability" }]
    else []
  { immediate_actions := immediate
    tool_substitutions := subs
    optimization_opportunities := opts
    habit_changes := habit
    system_improvements := sys_imp }

/-! ### analyze_mcp_adoption (lines 479-498) -/

structure McpAdoption where
  mcp_tool_count : Nat
  bash_tool_count : Nat
  mcp_categories : List (String × List String)
  adoption_rate : ℚ
  top_mcp_tools : List (String × ToolData)
  mcp_success_rate : ℚ
deriving Repr, DecidableEq

/-- analyze_mcp_adoption (lines 479-498). -/
def analyze_mcp_adoption (all_tools : List (String × ToolData)) : McpAdoption :=
  let mcp_tools := all_tools.filter (fun p => p.2.type_ == "mcp")
  let bash_tools := all_tools.filter (fun p => p.2.type_ == "bash")
  let mcp_categories := mcp_tools.foldl
    (fun acc p => dappend acc p.2.category p.1) []
  let total_mcp_usage : Nat :=
    (mcp_tools.map (fun p => p.2.stats.total_calls.getD 0)).sum
  let total_bash_usage : Nat :=
    (bash_tools.map (fun p => p.2.stats.total_executions.getD 0)).sum
  { mcp_tool_count := mcp_tools.length
    bash_tool_count := bash_tools.length
    mcp_categories := mcp_categories
    adoption_rate :=
      if total_mcp_usage + total_bash_usage > 0 then
        (total_mcp_usage : ℚ) / ((total_mcp_usage : ℚ) + (total_bash_usage : ℚ))
      else 0
    top_mcp_tools := (mcp_tools.mergeSort
      (fun a b => decide (b.2.stats.total_calls.getD 0 ≤ a.2.stats.total_calls.getD 0))).take 5
    mcp_success_rate :=
      if mcp_tools.length > 0 then
        ((mcp_tools.map (fun p => p.2.stats.success_rate.getD 0)).sum)
          / (mcp_tools.length : ℚ)
      else 0 }

/-! ### analyze_temporal_patterns (lines 500-560) -/

structure PeakEntry where
  usage_frequency : Nat
  category : String
  type_ : String
deriving Repr, DecidableEq

structure TrendEntry where
  trend : String
  reliability_score : ℚ
  last_updated : String
deriving Repr, DecidableEq

structure DevEntry where
  usage : Nat
  category : String
deriving Repr, DecidableEq

structure MaintEntry where
  usage : Nat
  success_rate : ℚ
deriving Repr, DecidableEq

structure SeasonalPatterns where
  development_cycles : List (String × DevEntry)
  maintenance_windows : List (String × MaintEntry)
deriving Repr, DecidableEq

structure TemporalPatterns where
  peak_usage_indicators : List (String × PeakEntry)
  trend_analysis : List (String × TrendEntry)
  seasonal_patterns : SeasonalPatterns
deriving Repr, DecidableEq

/-- analyze_temporal_patterns and its three helpers (lines 500-560). -/
def analyze_temporal_patterns (all_tools : List (String × ToolData)) :
    TemporalPatterns :=
  { peak_usage_indicators :=
      (all_tools.filter (fun p => decide (usage_count p.2.stats > 0))).map
        (fun p => (p.1,
          { usage_frequency := usage_count p.2.stats
            category := p.2.category
            type_ := p.2.type_ }))
    trend_analysis := all_tools.map
      (fun p => (p.1,
        { trend := p.2.stats.trend.getD "stable"
          reliability_score := p.2.stats.reliability_score.getD 0
          last_updated := p.2.stats.last_updated.getD "" }))
    seasonal_patterns :=
      { development_cycles :=
          (all_tools.filter (fun p =>
            ["development", "source_control", "file_operations"].contains
              p.2.category)).map
            (fun p => (p.1, { usage := usage_count p.2.stats, category := p.2.category }))
        maintenance_windows :=
          (all_tools.filter (fun p =>
            ["system_operations", "process_management"].contains p.2.category)).map
            (fun p => (p.1,
              { usage := usage_count p.2.stats
                success_rate := p.2.stats.success_rate.getD 0 })) } }

/-! ### analyze_security_patterns (lines 562-640) -/

structure PrivEntry where
  usage_count : Nat
  success_rate : ℚ
  risk_level : String
deriving Repr, DecidableEq

structure NetEntry where
  usage_count : Nat
  success_rate : ℚ
  category : String
deriving Repr, DecidableEq

structure FileEntry where
  usage_count : Nat
  success_rate : ℚ
  performance : ℚ
deriving Repr, DecidableEq

/-- One entry of security_recommendations; the network-volume entry carries
no tool key, hence the `Option`. -/
structure SecurityRec where
  type_ : String
  tool : Option String
  issue : String
  recommendation : String
deriving Repr, DecidableEq

structure SecurityInsights where
  privileged_operations : List (String × PrivEntry)
  network_operations : List (String × NetEntry)
  file_access_patterns : List (String × FileEntry)
  security_recommendations : List SecurityRec
deriving Repr, DecidableEq

/-- True when any of the keywords occurs in the lowercased tool name. -/
def name_matches_any (tool : String) (keywords : List String) : Bool :=
  keywords.any (fun k => strContains (pyLower tool) k)

/-- analyze_security_patterns and its four helpers (lines 562-640). -/
def analyze_security_patterns (all_tools : List (String × ToolData)) :
    SecurityInsights :=
  let priv_list := ["chmod", "sudo", "su", "chown", "systemctl"]
  let net_list := ["curl", "wget", "ssh", "scp", "rsync"]
  let file_list := ["find", "grep", "cat", "ls", "rm", "mv", "cp"]
  let high_risk := (all_tools.filter (fun p =>
      decide (p.2.stats.success_rate.getD 1 < 0.8) && strContains (pyLower p.1) "rm")).map
    (fun p =>
      ({ type_ := "high_risk_operation"
         tool := some p.1
         issue := "Low success rate for destructive operation"
         recommendation := "Review rm command usage and consider safer alternatives" }
        : SecurityRec))
  let network_usage : Nat := ((all_tools.filter (fun p =>
      strContains (pyLower p.1) "curl" || strContains (pyLower p.1) "wget")).map
    (fun p => p.2.stats.total_executions.getD 0)).sum
  let net_rec :=
    if network_usage > 100 then
      [({ type_ := "network_security"
          tool := none
          issue := "High network tool usage"
          recommendation := "Review network operations for potential security implications" }
        : SecurityRec)]
    else []
  { privileged_operations :=
      (all_tools.filter (fun p => name_matches_any p.1 priv_list)).map
        (fun p => (p.1,
          { usage_count := p.2.stats.total_executions.getD 0
            success_rate := p.2.stats.success_rate.getD 0
            risk_level :=
              if p.2.stats.success_rate.getD 1 < 0.9 then "high" else "medium" }))
    network_operations :=
      (all_tools.filter (fun p => name_matches_any p.1 net_list)).map
        (fun p => (p.1,
          { usage_count := p.2.stats.total_executions.getD 0
            success_rate := p.2.stats.success_rate.getD 0
            category := p.2.category }))
    file_access_patterns :=
      (all_tools.filter (fun p => name_matches_any p.1 file_list)).map
        (fun p => (p.1,
          { usage_count := p.2.stats.total_executions.getD 0
            success_rate := p.2.stats.success_rate.getD 0
            performance := p.2.stats.average_execution_time.getD 0 }))
    security_recommendations := high_risk ++ net_rec }

/-! ### analyze_tool_ecosystem and the analyzer entry point (lines 22-109,
642-675) -/

structure EcosystemAnalysis where
  ecosystem_health : EcosystemHealth
  tool_categories : List (String × List CatEntry)
  reliability_tiers : ReliabilityTiers
  usage_patterns : UsagePatterns
  performance_insights : PerformanceInsights
  error_correlations : ErrorCorrelations
  recommendations : Recommendations
  mcp_adoption_metrics : McpAdoption
  temporal_patterns : TemporalPatterns
  security_insights : SecurityInsights
  generated_at : String
deriving Repr, DecidableEq

/-- analyze_tool_ecosystem (lines 43-109): every field other than
generated_at is computed from the merged all_tools collection plus the
set-iteration order of the running process (line 376); generated_at records
`datetime.now()`, passed in as `now_iso`. -/
def analyze_tool_ecosystem (setOrder : List String → List String)
    (bash_stats mcp_stats : List (String × RawStats))
    (now_iso : String) : EcosystemAnalysis :=
  let all_tools := build_all_tools bash_stats mcp_stats
  let health := analyze_ecosystem_health all_tools
  let tiers := create_reliability_tiers all_tools
  let usage := analyze_usage_patterns all_tools
  let perf := analyze_performance all_tools
  { ecosystem_health := health
    tool_categories := categorize_tools all_tools
    reliability_tiers := tiers
    usage_patterns := usage
    performance_insights := perf
    error_correlations := analyze_error_correlations setOrder all_tools
    recommendations := generate_adaptive_recommendations all_tools tiers usage perf health
    mcp_adoption_metrics := analyze_mcp_adoption all_tools
    temporal_patterns := analyze_temporal_patterns all_tools
    security_insights := analyze_security_patterns all_tools
    generated_at := now_iso }

/-- The files the analyzer touches. A `none` stats file models an absent or
unparsable file, which load_stats (lines 22-41) turns into an empty mapping. -/
structure AnalyzerWorld where
  bash_stats_file : Option (List (String × RawStats))
  mcp_stats_file : Option (List (String × RawStats))
  combined_analysis_file : Option EcosystemAnalysis
  adaptive_recommendations_file : Option Recommendations
deriving Repr, DecidableEq

/-- load_stats (lines 22-41). -/
def load_stats (w : AnalyzerWorld) :
    List (String × RawStats) × List (String × RawStats) :=
  (w.bash_stats_file.getD [], w.mcp_stats_file.getD [])

/-- main of tool-reliability-analyzer.py (lines 642-671): load both stores,
analyze (under the set-iteration order of this process), overwrite the two
output files. It writes nothing else. -/
def analyzer_main (setOrder : List String → List String) (w : AnalyzerWorld)
    (now_iso : String) : AnalyzerWorld :=
  let loaded := load_stats w
  let analysis := analyze_tool_ecosystem setOrder loaded.1 loaded.2 now_iso
  { w with
    combined_analysis_file := some analysis
    adaptive_recommendations_file := some analysis.recommendations }

/-! ### Projection equations for the update operation -/

theorem update_tool_stats_total_calls (ts : ToolStats) (s : Bool) (rt : ℚ)
    (e n : String) :
    (update_tool_stats ts s rt e n).total_calls = ts.total_calls + 1 := rfl

theorem update_tool_stats_successful (ts : ToolStats) (s : Bool) (rt : ℚ)
    (e n : String) :
    (update_tool_stats ts s rt e n).successful_calls
      = if s then ts.successful_calls + 1 else ts.successful_calls := rfl

theorem update_tool_stats_failed (ts : ToolStats) (s : Bool) (rt : ℚ)
    (e n : String) :
    (update_tool_stats ts s rt e n).failed_calls
      = if s then ts.failed_calls else ts.failed_calls + 1 := rfl

theorem update_tool_stats_total_rt (ts : ToolStats) (s : Bool) (rt : ℚ)
    (e n : String) :
    (update_tool_stats ts s rt e n).total_response_time
      = ts.total_response_time + rt := rfl

theorem update_tool_stats_success_rate (ts : ToolStats) (s : Bool) (rt : ℚ)
    (e n : String) :
    (update_tool_stats ts s rt e n).success_rate
      = ((update_tool_stats ts s rt e n).successful_calls : ℚ)
        / ((update_tool_stats ts s rt e n).total_calls : ℚ) := rfl

theorem update_tool_stats_avg (ts : ToolStats) (s : Bool) (rt : ℚ)
    (e n : String) :
    (update_tool_stats ts s rt e n).average_response_time
      = (update_tool_stats ts s rt e n).total_response_time
        / ((update_tool_stats ts s rt e n).total_calls : ℚ) := rfl

theorem update_tool_stats_score (ts : ToolStats) (s : Bool) (rt : ℚ)
    (e n : String) :
    (update_tool_stats ts s rt e n).reliability_score
      = (update_tool_stats ts s rt e n).success_rate * 70
        + calculate_performance_factor
            (update_tool_stats ts s rt e n).average_response_time
        + calculate_stability_factor
            (update_tool_stats ts s rt e n).total_calls := rfl

theorem update_tool_stats_perf_cat (ts : ToolStats) (s : Bool) (rt : ℚ)
    (e n : String) :
    (update_tool_stats ts s rt e n).performance_category
      = (if (update_tool_stats ts s rt e n).average_response_time < 500 then "fast"
         else if (update_tool_stats ts s rt e n).average_response_time < 2000 then "normal"
         else if (update_tool_stats ts s rt e n).average_response_time < 5000 then "slow"
         else "very_slow") := rfl

theorem update_tool_stats_error_patterns (ts : ToolStats) (s : Bool) (rt : ℚ)
    (e n : String) :
    (update_tool_stats ts s rt e n).error_patterns
      = (if s then ts.error_patterns
         else if e = "" then ts.error_patterns
         else categorize_error ts.error_patterns e) := rfl

/-! ### C1: counter invariant under arbitrary update sequences -/

theorem counters_inv_aux (l : List UpdateArgs) (ts : ToolStats)
    (h : ts.successful_calls + ts.failed_calls = ts.total_calls) :
    (apply_updates ts l).successful_calls + (apply_updates ts l).failed_calls
      = (apply_updates ts l).total_calls := by
  induction l generalizing ts with
  | nil => exact h
  | cons a l ih =>
      refine ih _ ?_
      rw [update_tool_stats_successful, update_tool_stats_failed,
        update_tool_stats_total_calls]
      cases a.success <;> simp <;> omega

/-- C1: starting from the zero-initialized record, after every sequence of
updates `successful_calls + failed_calls = total_calls` holds, and a single
update increments total_calls by one and exactly one of successful_calls or
failed_calls by one, according to the success flag. -/
theorem successful_plus_failed_eq_total (l : List UpdateArgs) (ts : ToolStats)
    (success : Bool) (rt : ℚ) (e n : String) :
    ((apply_updates initToolStats l).successful_calls
        + (apply_updates initToolStats l).failed_calls
      = (apply_updates initToolStats l).total_calls)
    ∧ (update_tool_stats ts success rt e n).total_calls = ts.total_calls + 1
    ∧ (update_tool_stats ts success rt e n).successful_calls
        = ts.successful_calls + (if success then 1 else 0)
    ∧ (update_tool_stats ts success rt e n).failed_calls
        = ts.failed_calls + (if success then 0 else 1) := by
  refine ⟨counters_inv_aux l initToolStats rfl, ?_, ?_, ?_⟩
  · exact update_tool_stats_total_calls ts success rt e n
  · rw [update_tool_stats_successful]; cases success <;> simp
  · rw [update_tool_stats_failed]; cases success <;> simp

/-! ### C2: reliability score bounds and formula on reachable states -/

theorem performance_factor_bounds (q : ℚ) :
    0 ≤ calculate_performance_factor q ∧ calculate_performance_factor q ≤ 20 := by
  unfold calculate_performance_factor
  split_ifs <;> norm_num

theorem stability_factor_bounds (n : Nat) :
    0 ≤ calculate_stability_factor n ∧ calculate_stability_factor n ≤ 10 := by
  unfold calculate_stability_factor
  split_ifs with h1 h2 h3
  · norm_num
  · norm_num
  · norm_num
  · have h5 : n ≤ 5 := by omega
    constructor
    · positivity
    · calc (n : ℚ) ≤ (5 : Nat) := by exact_mod_cast h5
        _ ≤ 10 := by norm_num

/-- C2: on every state reached by at least one update from the
zero-initialized record, the stored reliability score is in [0, 100] and
equals the deterministic band formula of (success_rate,
average_response_time, total_calls): success_rate × 70 plus the performance
factor plus the stability factor. -/
theorem reliability_score_bounds_and_formula (l : List UpdateArgs)
    (success : Bool) (rt : ℚ) (e n : String) :
    0 ≤ (update_tool_stats (apply_updates initToolStats l) success rt e n).reliability_score
    ∧ (update_tool_stats (apply_updates initToolStats l) success rt e n).reliability_score
        ≤ 100
    ∧ (update_tool_stats (apply_updates initToolStats l) success rt e n).reliability_score
        = (update_tool_stats (apply_updates initToolStats l) success rt e n).success_rate * 70
          + calculate_performance_factor
              (update_tool_stats (apply_updates initToolStats l) success rt e n).average_response_time
          + calculate_stability_factor
              (update_tool_stats (apply_updates initToolStats l) success rt e n).total_calls := by
  set prev := apply_updates initToolStats l with hprev
  have hinv : prev.successful_calls + prev.failed_calls = prev.total_calls :=
    counters_inv_aux l initToolStats rfl
  have hsucc_le : (if success then prev.successful_calls + 1 else prev.successful_calls)
      ≤ prev.total_calls + 1 := by
    cases success <;> simp <;> omega
  have hsr : (update_tool_stats prev success rt e n).success_rate
      = ((if success then prev.successful_calls + 1 else prev.successful_calls : Nat) : ℚ)
        / ((prev.total_calls + 1 : Nat) : ℚ) := by
    rw [update_tool_stats_success_rate, update_tool_stats_successful,
      update_tool_stats_total_calls]
  have hpos : (0 : ℚ) < ((prev.total_calls + 1 : Nat) : ℚ) := by
    exact_mod_cast Nat.succ_pos prev.total_calls
  have hsr_nonneg : 0 ≤ (update_tool_stats prev success rt e n).success_rate := by
    rw [hsr]; positivity
  have hsr_le_one : (update_tool_stats prev success rt e n).success_rate ≤ 1 := by
    rw [hsr]
    rw [div_le_one hpos]
    exact_mod_cast hsucc_le
  have hpf := performance_factor_bounds
    (update_tool_stats prev success rt e n).average_response_time
  have hsf := stability_factor_bounds
    (update_tool_stats prev success rt e n).total_calls
  have hform := update_tool_stats_score prev success rt e n
  refine ⟨?_, ?_, hform⟩
  · rw [hform]
    have : 0 ≤ (update_tool_stats prev success rt e n).success_rate * 70 := by
      positivity
    linarith [hpf.1, hsf.1]
  · rw [hform]
    have : (update_tool_stats prev success rt e n).success_rate * 70 ≤ 70 := by
      nlinarith [hsr_le_one]
    linarith [hpf.2, hsf.2]

/-! ### Counter bookkeeping under update sequences -/

theorem apply_updates_counters (l : List UpdateArgs) (ts : ToolStats) :
    (apply_updates ts l).total_calls = ts.total_calls + l.length
    ∧ (apply_updates ts l).successful_calls
        = ts.successful_calls + l.countP (fun a => a.success)
    ∧ (apply_updates ts l).failed_calls
        = ts.failed_calls + l.countP (fun a => !a.success)
    ∧ (apply_updates ts l).total_response_time
        = ts.total_response_time + (l.map (fun a => a.response_time)).sum := by
  induction l generalizing ts with
  | nil => simp [apply_updates]
  | cons a l ih =>
      obtain ⟨h1, h2, h3, h4⟩ :=
        ih (update_tool_stats ts a.success a.response_time a.error_output a.now_iso)
      have e1 : apply_updates ts (a :: l)
          = apply_updates
              (update_tool_stats ts a.success a.response_time a.error_output a.now_iso)
              l := rfl
      rw [e1]
      refine ⟨?_, ?_, ?_, ?_⟩
      · rw [h1, update_tool_stats_total_calls, List.length_cons]; omega
      · rw [h2, update_tool_stats_successful, List.countP_cons]
        cases ha : a.success <;> simp [ha] <;> omega
      · rw [h3, update_tool_stats_failed, List.countP_cons]
        cases ha : a.success <;> simp [ha] <;> omega
      · rw [h4, update_tool_stats_total_rt, List.map_cons, List.sum_cons]; ring

/-! ### C3: the "alpha" scenario — 10 calls, 9 successful, all at 300 ms -/

def succ300 : UpdateArgs :=
  { success := true, response_time := 300, error_output := "", now_iso := "t0" }

def fail300 : UpdateArgs :=
  { success := false, response_time := 300, error_output := "", now_iso := "t0" }

/-- The first nine calls of the scenario: all successful at 300 ms. -/
def alphaPrefix : List UpdateArgs :=
  [succ300, succ300, succ300, succ300, succ300, succ300, succ300, succ300, succ300]

def alphaPrev : ToolStats := apply_updates initToolStats alphaPrefix

/-- The record of tool alpha after 10 calls, 9 successful then 1 failed,
each at 300 ms, starting from no record. -/
def alphaFinal : ToolStats := update_tool_stats alphaPrev false 300 "" "t0"

theorem alphaPrev_counters :
    alphaPrev.total_calls = 9 ∧ alphaPrev.successful_calls = 9
      ∧ alphaPrev.total_response_time = 2700 := by
  obtain ⟨h1, h2, _, h4⟩ := apply_updates_counters alphaPrefix initToolStats
  unfold alphaPrev
  refine ⟨?_, ?_, ?_⟩
  · rw [h1]; rfl
  · rw [h2]; rfl
  · rw [h4]
    show (0 : ℚ) + _ = 2700
    simp [alphaPrefix, succ300, List.map_cons, List.sum_cons]
    norm_num

theorem alphaFinal_fields :
    alphaFinal.success_rate = 9 / 10 ∧ alphaFinal.average_response_time = 300
      ∧ alphaFinal.total_calls = 10 := by
  obtain ⟨hc1, hc2, hc3⟩ := alphaPrev_counters
  unfold alphaFinal
  refine ⟨?_, ?_, ?_⟩
  · rw [update_tool_stats_success_rate, update_tool_stats_successful,
      update_tool_stats_total_calls, hc1, hc2]
    norm_num
  · rw [update_tool_stats_avg, update_tool_stats_total_rt,
      update_tool_stats_total_calls, hc1, hc3]
    norm_num
  · rw [update_tool_stats_total_calls, hc1]

theorem alphaFinal_score : alphaFinal.reliability_score = 88 := by
  obtain ⟨h1, h2, h3⟩ := alphaFinal_fields
  have hs := update_tool_stats_score alphaPrev false 300 "" "t0"
  rw [show update_tool_stats alphaPrev false 300 "" "t0" = alphaFinal from rfl] at hs
  rw [hs, h1, h2, h3]
  unfold calculate_performance_factor calculate_stability_factor
  norm_num

theorem alphaFinal_cat : alphaFinal.performance_category = "fast" := by
  have hp := update_tool_stats_perf_cat alphaPrev false 300 "" "t0"
  rw [show update_tool_stats alphaPrev false 300 "" "t0" = alphaFinal from rfl] at hp
  rw [hp, alphaFinal_fields.2.1, if_pos (by norm_num : (300 : ℚ) < 500)]

/-- C3 counterexample: in the alpha scenario (10 calls, 9 successful, 1
failed, each at 300 ms) the code does produce success_rate 9/10 and
performance_category fast, but the stored reliability score is not 90: at
exactly 10 calls the strict `total_calls > 10` test of
calculate_stability_factor fails, so the stability factor is 5, not 7. -/
theorem alpha_scenario_score_is_not_90 :
    alphaFinal.success_rate = 9 / 10 ∧ alphaFinal.performance_category = "fast"
      ∧ alphaFinal.reliability_score ≠ 90 := by
  refine ⟨alphaFinal_fields.1, alphaFinal_cat, ?_⟩
  rw [alphaFinal_score]; norm_num

/-- C3 amended: if a tool starting from no record receives exactly 10 update
calls, 9 successful and 1 failed, each with latency 300 ms, then afterwards
its record has success_rate = 0.9, performance_category = fast, and
reliability_score = 0.9 × 70 + 20 + 5 = 88 (the stability factor at exactly
10 calls is 5, because the `> 10` band test of the code is strict). -/
theorem alpha_scenario_fields :
    alphaFinal.success_rate = 9 / 10 ∧ alphaFinal.performance_category = "fast"
      ∧ alphaFinal.reliability_score = (0.9 : ℚ) * 70 + 20 + 5
      ∧ alphaFinal.reliability_score = 88 := by
  refine ⟨alphaFinal_fields.1, alphaFinal_cat, ?_, alphaFinal_score⟩
  rw [alphaFinal_score]; norm_num

/-! ### Dict lemmas -/

theorem dget?_cons {α : Type} (p : String × α) (t : List (String × α)) (k : String) :
    dget? (p :: t) k = if p.1 = k then some p.2 else dget? t k := by
  unfold dget?
  by_cases h : p.1 = k
  · have hb : (p.1 == k) = true := by simp [h]
    simp [List.find?, hb, h]
  · have hb : (p.1 == k) = false := by simp [h]
    simp [List.find?, hb, h]

theorem dget?_dset {α : Type} (m : List (String × α)) (k : String) (v : α)
    (k2 : String) :
    dget? (dset m k v) k2 = if k2 = k then some v else dget? m k2 := by
  induction m with
  | nil =>
      show dget? [(k, v)] k2 = _
      rw [dget?_cons]
      by_cases h : k2 = k
      · simp [h]
      · simp [h, Ne.symm h, dget?]
  | cons p t ih =>
      show dget? (if p.1 == k then (k, v) :: t else p :: dset t k v) k2 = _
      by_cases hpk : p.1 = k
      · rw [if_pos (by simp [hpk]), dget?_cons]
        by_cases h : k2 = k
        · simp [h]
        · simp [h, Ne.symm h, dget?_cons, hpk]
      · rw [if_neg (by simp [hpk]), dget?_cons, ih, dget?_cons]
        by_cases h : k2 = k
        · subst h
          simp [hpk]
        · simp [h]

theorem dgetN_dset (m : List (String × Nat)) (k : String) (v : Nat) (k2 : String) :
    dgetN (dset m k v) k2 = if k2 = k then v else dgetN m k2 := by
  unfold dgetN
  rw [dget?_dset]
  by_cases h : k2 = k <;> simp [h]

theorem dgetN_dinc (m : List (String × Nat)) (k k2 : String) :
    dgetN (dinc m k) k2 = dgetN m k2 + (if k2 = k then 1 else 0) := by
  unfold dinc
  rw [dgetN_dset]
  by_cases h : k2 = k
  · subst h; simp
  · simp [h]

theorem dkeys_dset {α : Type} (m : List (String × α)) (k : String) (v : α) :
    dkeys (dset m k v) = if dmem m k then dkeys m else dkeys m ++ [k] := by
  induction m with
  | nil => simp [dset, dkeys, dmem, dget?, List.find?]
  | cons p t ih =>
      show dkeys (if p.1 == k then (k, v) :: t else p :: dset t k v) = _
      by_cases hpk : p.1 = k
      · rw [if_pos (by simp [hpk])]
        have hm : dmem (p :: t) k = true := by
          simp [dmem, dget?_cons, hpk]
        rw [hm]
        simp [dkeys, hpk]
      · rw [if_neg (by simp [hpk])]
        have hm : dmem (p :: t) k = dmem t k := by
          simp [dmem, dget?_cons, hpk]
        rw [hm]
        by_cases h : dmem t k
        · simp only [h, if_pos] at ih ⊢
          simp [dkeys] at ih ⊢
          exact ih
        · simp only [h] at ih ⊢
          simp [dkeys] at ih ⊢
          exact ih

/-! ### C9: updates are local to the updated tool -/

/-- C9: an update for tool T leaves the record of every other tool in the
Statistics Store mapping unchanged, and extends the key set by T exactly
when T was absent. -/
theorem update_stats_map_frame (stats : List (String × ToolStats))
    (tool_name : String) (success : Bool) (rt : ℚ) (e n : String)
    (t2 : String) (h : t2 ≠ tool_name) :
    dget? (update_stats_map stats tool_name success rt e n) t2 = dget? stats t2
    ∧ dkeys (update_stats_map stats tool_name success rt e n)
        = (if dmem stats tool_name then dkeys stats
           else dkeys stats ++ [tool_name]) := by
  unfold update_stats_map
  constructor
  · rw [dget?_dset]; simp [h]
  · exact dkeys_dset _ _ _

/-- Witness for C9 at a concrete store and tool pair. -/
theorem update_stats_map_frame_witness :
    dget? (update_stats_map [("mcp__a__x", initToolStats)] "mcp__b__y" true 100 "" "t0")
        "mcp__a__x"
      = dget? [("mcp__a__x", initToolStats)] "mcp__a__x"
    ∧ dkeys (update_stats_map [("mcp__a__x", initToolStats)] "mcp__b__y" true 100 "" "t0")
        = (if dmem [("mcp__a__x", initToolStats)] "mcp__b__y"
           then dkeys [("mcp__a__x", initToolStats)]
           else dkeys [("mcp__a__x", initToolStats)] ++ ["mcp__b__y"]) :=
  update_stats_map_frame [("mcp__a__x", initToolStats)] "mcp__b__y" true 100 "" "t0"
    "mcp__a__x" (by decide)

/-! ### C4: the Error Classifier -/

/-- The taxonomy as the spec states it: ordered (label, keyword test) pairs
over the lowercased error text, first match wins, defaulting to other. The
keyword sets per label are the ones of categorize_error. -/
def taxonomy_table : List (String × (String → Bool)) :=
  [("timeout", fun e => strContains e "timeout"),
   ("permission", fun e => strContains e "permission" || strContains e "unauthorized"),
   ("network", fun e => strContains e "network" || strContains e "connection"),
   ("rate_limit", fun e => strContains e "rate limit"),
   ("invalid_input", fun e => strContains e "invalid" || strContains e "malformed"),
   ("not_found", fun e => strContains e "not found")]

/-- First-match-wins classification over the ordered taxonomy, per the spec
wording of section 4.3. -/
def classifier_label (error_output : String) : String :=
  let e := pyLower error_output
  match taxonomy_table.find? (fun p => p.2 e) with
  | some p => p.1
  | none => "other"

/-- The code classifier coincides with the spec-side first-match-wins
classifier: it increments exactly the bucket of the first matching label. -/
theorem categorize_error_eq_dinc (patterns : List (String × Nat)) (err : String) :
    categorize_error patterns err = dinc patterns (classifier_label err) := by
  unfold categorize_error classifier_label taxonomy_table
  dsimp only
  simp only [List.find?]
  generalize strContains (pyLower err) "timeout" = b1
  generalize (strContains (pyLower err) "permission"
    || strContains (pyLower err) "unauthorized") = b2
  generalize (strContains (pyLower err) "network"
    || strContains (pyLower err) "connection") = b3
  generalize strContains (pyLower err) "rate limit" = b4
  generalize (strContains (pyLower err) "invalid"
    || strContains (pyLower err) "malformed") = b5
  generalize strContains (pyLower err) "not found" = b6
  cases b1 <;> cases b2 <;> cases b3 <;> cases b4 <;> cases b5 <;> cases b6 <;> rfl

/-- The "beta" scenario: a failed call with error text Connection timeout. -/
def failCT : UpdateArgs :=
  { success := false, response_time := 100,
    error_output := "Connection timeout", now_iso := "t0" }

/-- The record of tool beta after 4 calls, all failed with error text
Connection timeout, starting from no record. -/
def betaFinal : ToolStats :=
  apply_updates initToolStats [failCT, failCT, failCT, failCT]

/-- C4: every error text classifies to exactly one of the 7 taxonomy labels;
the classifier is the deterministic first-match-wins scan of the ordered
taxonomy over lowercased substring tests; exactly one bucket count is
incremented per classified error; the beta scenario (4 failures with error
text Connection timeout, which also contains the network keyword
connection) yields error_patterns[timeout] = 4 under the timeout-first
precedence; and empty error text classifies nothing. -/
theorem error_classifier_properties :
    (∀ e : String, classifier_label e ∈
      ["timeout", "permission", "network", "rate_limit", "invalid_input",
       "not_found", "other"])
    ∧ (∀ patterns err, categorize_error patterns err
        = dinc patterns (classifier_label err))
    ∧ (∀ patterns err k, dgetN (categorize_error patterns err) k
        = dgetN patterns k + (if k = classifier_label err then 1 else 0))
    ∧ classifier_label "Connection timeout" = "timeout"
    ∧ dgetN betaFinal.error_patterns "timeout" = 4
    ∧ (∀ ts s rt n, (update_tool_stats ts s rt "" n).error_patterns
        = ts.error_patterns)
    ∧ (∀ ts rt e n, (update_tool_stats ts true rt e n).error_patterns
        = ts.error_patterns) := by
  refine ⟨?_, categorize_error_eq_dinc, ?_, ?_, ?_, ?_, ?_⟩
  · intro e
    unfold classifier_label
    dsimp only
    cases hf : List.find? (fun p => p.2 (pyLower e)) taxonomy_table with
    | none => simp
    | some p =>
        have hp := List.mem_of_find?_eq_some hf
        simp only [taxonomy_table, List.mem_cons, List.not_mem_nil, or_false] at hp
        rcases hp with h | h | h | h | h | h <;> subst h <;> simp
  · intro patterns err k
    rw [categorize_error_eq_dinc, dgetN_dinc]
  · decide
  · decide
  · intro ts s rt n
    rw [update_tool_stats_error_patterns]
    cases s <;> simp
  · intro ts rt e n
    rw [update_tool_stats_error_patterns]
    simp

/-! ### C10: performance category bands -/

/-- C10: after every update the stored performance_category is fast iff the
stored average_response_time is below 500 ms, normal iff it is in
[500, 2000), slow iff in [2000, 5000), and very_slow iff at least 5000 ms;
and the category bands do not coincide with the reliability score
performance-factor bands, which insert an extra cut at 1000 ms (700 ms and
1500 ms share the normal category but get factors 15 and 10). -/
theorem performance_category_bands (ts : ToolStats) (s : Bool) (rt : ℚ)
    (e n : String) :
    ((update_tool_stats ts s rt e n).performance_category = "fast"
        ↔ (update_tool_stats ts s rt e n).average_response_time < 500)
    ∧ ((update_tool_stats ts s rt e n).performance_category = "normal"
        ↔ 500 ≤ (update_tool_stats ts s rt e n).average_response_time
          ∧ (update_tool_stats ts s rt e n).average_response_time < 2000)
    ∧ ((update_tool_stats ts s rt e n).performance_category = "slow"
        ↔ 2000 ≤ (update_tool_stats ts s rt e n).average_response_time
          ∧ (update_tool_stats ts s rt e n).average_response_time < 5000)
    ∧ ((update_tool_stats ts s rt e n).performance_category = "very_slow"
        ↔ 5000 ≤ (update_tool_stats ts s rt e n).average_response_time)
    ∧ calculate_performance_factor 700 = 15
    ∧ calculate_performance_factor 1500 = 10
    ∧ (update_tool_stats initToolStats true 700 "" "t0").performance_category
        = "normal"
    ∧ (update_tool_stats initToolStats true 1500 "" "t0").performance_category
        = "normal" := by
  have hpc := update_tool_stats_perf_cat ts s rt e n
  refine ⟨?_, ?_, ?_, ?_, ?_, ?_, ?_, ?_⟩
  case refine_5 => unfold calculate_performance_factor; norm_num
  case refine_6 => unfold calculate_performance_factor; norm_num
  case refine_7 =>
      rw [update_tool_stats_perf_cat]
      have havg : (update_tool_stats initToolStats true 700 "" "t0").average_response_time
          = 700 := by
        rw [update_tool_stats_avg, update_tool_stats_total_rt,
          update_tool_stats_total_calls]
        norm_num [initToolStats]
      rw [havg]
      norm_num
  case refine_8 =>
      rw [update_tool_stats_perf_cat]
      have havg : (update_tool_stats initToolStats true 1500 "" "t0").average_response_time
          = 1500 := by
        rw [update_tool_stats_avg, update_tool_stats_total_rt,
          update_tool_stats_total_calls]
        norm_num [initToolStats]
      rw [havg]
      norm_num
  all_goals (
    rw [hpc]
    rcases lt_or_le (update_tool_stats ts s rt e n).average_response_time 500 with h1 | h1
    · rw [if_pos h1]
      constructor <;> intro hx
      · first
          | exact h1
          | exact ⟨h1, by linarith⟩
          | (exfalso; revert hx; decide)
          | (exfalso; rcases hx with ⟨hx1, hx2⟩; linarith)
          | (exfalso; linarith)
      · first
          | rfl
          | (exfalso; rcases hx with ⟨hx1, hx2⟩; linarith)
          | (exfalso; linarith)
    · rw [if_neg (not_lt.2 h1)]
      rcases lt_or_le (update_tool_stats ts s rt e n).average_response_time 2000 with h2 | h2
      · rw [if_pos h2]
        constructor <;> intro hx
        · first
            | exact ⟨h1, h2⟩
            | (exfalso; revert hx; decide)
        · first
            | rfl
            | (exfalso; rcases hx with ⟨hx1, hx2⟩; linarith)
            | (exfalso; linarith)
      · rw [if_neg (not_lt.2 h2)]
        rcases lt_or_le (update_tool_stats ts s rt e n).average_response_time 5000 with h3 | h3
        · rw [if_pos h3]
          constructor <;> intro hx
          · first
              | exact ⟨h2, h3⟩
              | (exfalso; revert hx; decide)
          · first
              | rfl
              | (exfalso; rcases hx with ⟨hx1, hx2⟩; linarith)
              | (exfalso; linarith)
        · rw [if_neg (not_lt.2 h3)]
          constructor <;> intro hx
          · first
              | exact h3
              | (exfalso; revert hx; decide)
          · first
              | rfl
              | (exfalso; rcases hx with ⟨hx1, hx2⟩; linarith)
              | (exfalso; linarith))

/-! ### C6: reliability tiers partition the tool collection -/

/-- The tier selected for a success rate by the fixed thresholds of
create_reliability_tiers, as a band map (spec-side description of the
partition). -/
def tier_label (r : ℚ) : String :=
  if r ≥ 0.95 then "tier_1_excellent"
  else if r ≥ 0.85 then "tier_2_good"
  else if r ≥ 0.70 then "tier_3_fair"
  else if r ≥ 0.50 then "tier_4_poor"
  else "tier_5_critical"

theorem tier_label_total (r : ℚ) :
    tier_label r = "tier_1_excellent" ∨ tier_label r = "tier_2_good"
      ∨ tier_label r = "tier_3_fair" ∨ tier_label r = "tier_4_poor"
      ∨ tier_label r = "tier_5_critical" := by
  unfold tier_label
  split_ifs <;> simp

theorem create_tiers_foldl (l : List (String × ToolData)) (acc : ReliabilityTiers) :
    ((l.foldl (fun a q => tier_insert a q.1 q.2) acc).tier_1_excellent
      = acc.tier_1_excellent ++ (l.filter (fun p =>
          tier_label (p.2.stats.success_rate.getD 0) == "tier_1_excellent")).map
        (fun p => tier_entry_of p.1 p.2))
    ∧ ((l.foldl (fun a q => tier_insert a q.1 q.2) acc).tier_2_good
      = acc.tier_2_good ++ (l.filter (fun p =>
          tier_label (p.2.stats.success_rate.getD 0) == "tier_2_good")).map
        (fun p => tier_entry_of p.1 p.2))
    ∧ ((l.foldl (fun a q => tier_insert a q.1 q.2) acc).tier_3_fair
      = acc.tier_3_fair ++ (l.filter (fun p =>
          tier_label (p.2.stats.success_rate.getD 0) == "tier_3_fair")).map
        (fun p => tier_entry_of p.1 p.2))
    ∧ ((l.foldl (fun a q => tier_insert a q.1 q.2) acc).tier_4_poor
      = acc.tier_4_poor ++ (l.filter (fun p =>
          tier_label (p.2.stats.success_rate.getD 0) == "tier_4_poor")).map
        (fun p => tier_entry_of p.1 p.2))
    ∧ ((l.foldl (fun a q => tier_insert a q.1 q.2) acc).tier_5_critical
      = acc.tier_5_critical ++ (l.filter (fun p =>
          tier_label (p.2.stats.success_rate.getD 0) == "tier_5_critical")).map
        (fun p => tier_entry_of p.1 p.2)) := by
  induction l generalizing acc with
  | nil => simp
  | cons p t ih =>
      obtain ⟨ih1, ih2, ih3, ih4, ih5⟩ := ih (tier_insert acc p.1 p.2)
      have hstep : (p :: t).foldl (fun a q => tier_insert a q.1 q.2) acc
          = t.foldl (fun a q => tier_insert a q.1 q.2) (tier_insert acc p.1 p.2) := rfl
      rw [hstep]
      by_cases h1 : (p.2.stats.success_rate.getD 0) ≥ 0.95
      · have hlab : tier_label (p.2.stats.success_rate.getD 0) = "tier_1_excellent" := by
          unfold tier_label; rw [if_pos h1]
        have hins : tier_insert acc p.1 p.2
            = { acc with tier_1_excellent :=
                acc.tier_1_excellent ++ [tier_entry_of p.1 p.2] } := by
          unfold tier_insert; dsimp only; rw [if_pos h1]
        refine ⟨?_, ?_, ?_, ?_, ?_⟩ <;>
          (first | rw [ih1, hins] | rw [ih2, hins] | rw [ih3, hins] | rw [ih4, hins] | rw [ih5, hins]) <;>
          simp [List.filter_cons, hlab]
      · by_cases h2 : (p.2.stats.success_rate.getD 0) ≥ 0.85
        · have hlab : tier_label (p.2.stats.success_rate.getD 0) = "tier_2_good" := by
            unfold tier_label; rw [if_neg h1, if_pos h2]
          have hins : tier_insert acc p.1 p.2
              = { acc with tier_2_good := acc.tier_2_good ++ [tier_entry_of p.1 p.2] } := by
            unfold tier_insert; dsimp only; rw [if_neg h1, if_pos h2]
          refine ⟨?_, ?_, ?_, ?_, ?_⟩ <;>
            (first | rw [ih1, hins] | rw [ih2, hins] | rw [ih3, hins] | rw [ih4, hins] | rw [ih5, hins]) <;>
            simp [List.filter_cons, hlab]
        · by_cases h3 : (p.2.stats.success_rate.getD 0) ≥ 0.70
          · have hlab : tier_label (p.2.stats.success_rate.getD 0) = "tier_3_fair" := by
              unfold tier_label; rw [if_neg h1, if_neg h2, if_pos h3]
            have hins : tier_insert acc p.1 p.2
                = { acc with tier_3_fair := acc.tier_3_fair ++ [tier_entry_of p.1 p.2] } := by
              unfold tier_insert; dsimp only; rw [if_neg h1, if_neg h2, if_pos h3]
            refine ⟨?_, ?_, ?_, ?_, ?_⟩ <;>
              (first | rw [ih1, hins] | rw [ih2, hins] | rw [ih3, hins] | rw [ih4, hins] | rw [ih5, hins]) <;>
              simp [List.filter_cons, hlab]
          · by_cases h4 : (p.2.stats.success_rate.getD 0) ≥ 0.50
            · have hlab : tier_label (p.2.stats.success_rate.getD 0) = "tier_4_poor" := by
                unfold tier_label; rw [if_neg h1, if_neg h2, if_neg h3, if_pos h4]
              have hins : tier_insert acc p.1 p.2
                  = { acc with tier_4_poor := acc.tier_4_poor ++ [tier_entry_of p.1 p.2] } := by
                unfold tier_insert; dsimp only; rw [if_neg h1, if_neg h2, if_neg h3, if_pos h4]
              refine ⟨?_, ?_, ?_, ?_, ?_⟩ <;>
                (first | rw [ih1, hins] | rw [ih2, hins] | rw [ih3, hins] | rw [ih4, hins] | rw [ih5, hins]) <;>
                simp [List.filter_cons, hlab]
            · have hlab : tier_label (p.2.stats.success_rate.getD 0) = "tier_5_critical" := by
                unfold tier_label; rw [if_neg h1, if_neg h2, if_neg h3, if_neg h4]
              have hins : tier_insert acc p.1 p.2
                  = { acc with tier_5_critical :=
                      acc.tier_5_critical ++ [tier_entry_of p.1 p.2] } := by
                unfold tier_insert; dsimp only
                rw [if_neg h1, if_neg h2, if_neg h3, if_neg h4]
              refine ⟨?_, ?_, ?_, ?_, ?_⟩ <;>
                (first | rw [ih1, hins] | rw [ih2, hins] | rw [ih3, hins] | rw [ih4, hins] | rw [ih5, hins]) <;>
                simp [List.filter_cons, hlab]

theorem tier_filter_length_sum (l : List (String × ToolData)) :
    (l.filter (fun p =>
        tier_label (p.2.stats.success_rate.getD 0) == "tier_1_excellent")).length
    + (l.filter (fun p =>
        tier_label (p.2.stats.success_rate.getD 0) == "tier_2_good")).length
    + (l.filter (fun p =>
        tier_label (p.2.stats.success_rate.getD 0) == "tier_3_fair")).length
    + (l.filter (fun p =>
        tier_label (p.2.stats.success_rate.getD 0) == "tier_4_poor")).length
    + (l.filter (fun p =>
        tier_label (p.2.stats.success_rate.getD 0) == "tier_5_critical")).length
    = l.length := by
  induction l with
  | nil => simp
  | cons p t ih =>
      rcases tier_label_total (p.2.stats.success_rate.getD 0) with h | h | h | h | h <;>
        simp [List.filter_cons, h] <;> omega

/-- C6: create_reliability_tiers partitions any tool collection: each bucket
is exactly the sublist of tools whose success rate falls in that band (the
band map tier_label being total over the five labels), and the bucket sizes
add up to the collection size, so every tool is placed in exactly one
bucket. -/
theorem reliability_tiers_partition (all_tools : List (String × ToolData)) :
    ((create_reliability_tiers all_tools).tier_1_excellent
      = (all_tools.filter (fun p =>
          tier_label (p.2.stats.success_rate.getD 0) == "tier_1_excellent")).map
        (fun p => tier_entry_of p.1 p.2))
    ∧ ((create_reliability_tiers all_tools).tier_2_good
      = (all_tools.filter (fun p =>
          tier_label (p.2.stats.success_rate.getD 0) == "tier_2_good")).map
        (fun p => tier_entry_of p.1 p.2))
    ∧ ((create_reliability_tiers all_tools).tier_3_fair
      = (all_tools.filter (fun p =>
          tier_label (p.2.stats.success_rate.getD 0) == "tier_3_fair")).map
        (fun p => tier_entry_of p.1 p.2))
    ∧ ((create_reliability_tiers all_tools).tier_4_poor
      = (all_tools.filter (fun p =>
          tier_label (p.2.stats.success_rate.getD 0) == "tier_4_poor")).map
        (fun p => tier_entry_of p.1 p.2))
    ∧ ((create_reliability_tiers all_tools).tier_5_critical
      = (all_tools.filter (fun p =>
          tier_label (p.2.stats.success_rate.getD 0) == "tier_5_critical")).map
        (fun p => tier_entry_of p.1 p.2))
    ∧ (∀ r : ℚ, tier_label r = "tier_1_excellent" ∨ tier_label r = "tier_2_good"
        ∨ tier_label r = "tier_3_fair" ∨ tier_label r = "tier_4_poor"
        ∨ tier_label r = "tier_5_critical")
    ∧ ((create_reliability_tiers all_tools).tier_1_excellent.length
        + (create_reliability_tiers all_tools).tier_2_good.length
        + (create_reliability_tiers all_tools).tier_3_fair.length
        + (create_reliability_tiers all_tools).tier_4_poor.length
        + (create_reliability_tiers all_tools).tier_5_critical.length
      = all_tools.length) := by
  obtain ⟨h1, h2, h3, h4, h5⟩ := create_tiers_foldl all_tools
    { tier_1_excellent := [], tier_2_good := [], tier_3_fair := [],
      tier_4_poor := [], tier_5_critical := [] }
  have e1 : create_reliability_tiers all_tools
      = all_tools.foldl (fun a q => tier_insert a q.1 q.2)
        { tier_1_excellent := [], tier_2_good := [], tier_3_fair := [],
          tier_4_poor := [], tier_5_critical := [] } := rfl
  refine ⟨?_, ?_, ?_, ?_, ?_, tier_label_total, ?_⟩
  · rw [e1, h1]; rfl
  · rw [e1, h2]; rfl
  · rw [e1, h3]; rfl
  · rw [e1, h4]; rfl
  · rw [e1, h5]; rfl
  · rw [e1, h1, h2, h3, h4, h5]
    simp only [List.nil_append, List.length_map]
    exact tier_filter_length_sum all_tools

/-! ### C7: analyzer idempotence modulo the generation timestamp -/

/-- A stats snapshot in which two tools share one error text, so that
`list(set(tools))` is applied to a two-element set. -/
def c7Raw : RawStats :=
  { emptyRawStats with common_errors := [("boom", 1)] }

def c7Stats : List (String × RawStats) :=
  [("mcp__a__x", c7Raw), ("mcp__b__y", c7Raw)]

/-- C7 counterexample: the analyzer output is not a function of the store
snapshot and the timestamp alone. Two runs over the same snapshot, in
processes whose hash-randomized set-iteration orders differ (here:
first-occurrence order and its reverse, both enumerations of the same
two-element set), produce different tools_with_similar_errors lists even
with the same generation timestamp, so two runs need not be identical
modulo the timestamp. -/
theorem analyzer_output_depends_on_set_order :
    (analyze_tool_ecosystem (fun l => l) [] c7Stats
        "t1").error_correlations.tools_with_similar_errors
      = [("boom", ["mcp__a__x", "mcp__b__y"])]
    ∧ (analyze_tool_ecosystem (fun l => l.reverse) [] c7Stats
        "t1").error_correlations.tools_with_similar_errors
      = [("boom", ["mcp__b__y", "mcp__a__x"])]
    ∧ (List.reverse (pyDistinct ["mcp__a__x", "mcp__b__y"])).Perm
        (pyDistinct ["mcp__a__x", "mcp__b__y"])
    ∧ analyze_tool_ecosystem (fun l => l) [] c7Stats "t1"
        ≠ analyze_tool_ecosystem (fun l => l.reverse) [] c7Stats "t1" := by
  refine ⟨by decide, by decide, by decide, ?_⟩
  intro h
  have h2 := congrArg
    (fun a => a.error_correlations.tools_with_similar_errors) h
  revert h2
  decide

/-- C7 amended: within one interpreter process, whose hash seed fixes one
set-iteration order, the ecosystem analysis is a pure function of the two
loaded stats snapshots plus the generation timestamp: two runs with the same
set order agree on every field except generated_at (in particular the
recommendations-only document is identical); the analyzer never writes the
two Statistics Store files; and a second such run over the world produced by
a first run reproduces the first analysis with only the timestamp changed.
Across processes the ordering inside tools_with_similar_errors and
affected_tools can additionally differ, per the counterexample. -/
theorem analyzer_idempotent_for_fixed_set_order
    (setOrder : List String → List String) (w : AnalyzerWorld) (t1 t2 : String)
    (bash mcp : List (String × RawStats)) :
    analyze_tool_ecosystem setOrder bash mcp t1
      = { analyze_tool_ecosystem setOrder bash mcp t2 with generated_at := t1 }
    ∧ (analyze_tool_ecosystem setOrder bash mcp t1).recommendations
        = (analyze_tool_ecosystem setOrder bash mcp t2).recommendations
    ∧ (analyzer_main setOrder w t1).bash_stats_file = w.bash_stats_file
    ∧ (analyzer_main setOrder w t1).mcp_stats_file = w.mcp_stats_file
    ∧ (analyzer_main setOrder (analyzer_main setOrder w t1) t2).combined_analysis_file
        = some ({ analyze_tool_ecosystem setOrder (w.bash_stats_file.getD [])
            (w.mcp_stats_file.getD []) t1 with generated_at := t2 })
    ∧ (analyzer_main setOrder (analyzer_main setOrder w t1) t2).adaptive_recommendations_file
        = (analyzer_main setOrder w t1).adaptive_recommendations_file := by
  refine ⟨rfl, rfl, rfl, rfl, rfl, rfl⟩

/-! ### C5: write failures are not swallowed -/

/-- The exit code of a tracker run that terminated normally; `none` when an
exception escaped main. -/
def exitCodeOf (r : Except Unit (TrackerWorld × Nat × List String)) : Option Nat :=
  match r with
  | .ok (_, c, _) => some c
  | .error _ => none

def c5World : TrackerWorld :=
  { log_lines := []
    stats_file := none
    analysis_file := none
    log_writable := false
    stats_writable := true
    analysis_writable := true }

/-- C5 (code bug): on a well-formed invocation of a tracked tool, a failing
write of the log file or of the stats file escapes main as an uncaught
exception (non-zero interpreter exit), because log_mcp_execution and
update_mcp_stats wrap no try/except around their writes; so tracking
failures do propagate to the caller, and wrong argument count is not the
only source of a non-zero exit. The well-behaved paths are as specified:
short argument lists exit 1, untracked tools and successful runs exit 0. -/
theorem tracker_write_failure_escapes :
    tracker_main 6 "mcp__github__get_issue" "true" 120 "None" "sess1" "ts" "iso" c5World
      = .error ()
    ∧ tracker_main 6 "mcp__github__get_issue" "true" 120 "None" "sess1" "ts" "iso"
        { c5World with log_writable := true, stats_writable := false } = .error ()
    ∧ exitCodeOf (tracker_main 3 "mcp__github__get_issue" "true" 120 "None" "sess1"
        "ts" "iso" c5World) = some 1
    ∧ exitCodeOf (tracker_main 6 "git" "true" 120 "None" "sess1" "ts" "iso" c5World)
        = some 0
    ∧ exitCodeOf (tracker_main 6 "mcp__github__get_issue" "true" 120 "None" "sess1"
        "ts" "iso" { c5World with log_writable := true }) = some 0 := by
  refine ⟨rfl, rfl, rfl, rfl, ?_⟩
  decide

/-! ### C8: the repeated-failure alert -/

/-- One execution event as the spec speaks of log entries. -/
structure ExecRecord where
  tool_name : String
  success : Bool
  response_time : ℚ
  error_output : String
  session_id : String
  now_ts : String
deriving Repr, DecidableEq

/-- The log line the Recorder writes for an event. -/
def render_record (r : ExecRecord) : String :=
  log_entry r.now_ts r.session_id r.tool_name r.success r.response_time r.error_output

/-- The alert condition as the claim states it: the 3 most recent log
entries for the tool are failures. -/
def last_three_for_tool_all_failures (records : List ExecRecord)
    (tool : String) : Bool :=
  let entries := records.filter (fun r => r.tool_name == tool)
  let last3 := takeLast 3 entries
  decide (last3.length = 3) && last3.all (fun r => r.success == false)

def c8r1 : ExecRecord :=
  { tool_name := "mcp__a__x", success := false, response_time := 300,
    error_output := "", session_id := "s1", now_ts := "ts1" }

def c8r2 : ExecRecord :=
  { tool_name := "mcp__a__x", success := false, response_time := 300,
    error_output := "", session_id := "s1", now_ts := "ts2" }

def c8r3 : ExecRecord :=
  { tool_name := "mcp__a__x", success := true, response_time := 300,
    error_output := "", session_id := "s1", now_ts := "ts3" }

def c8r4 : ExecRecord :=
  { tool_name := "mcp__a__x", success := false, response_time := 300,
    error_output := "", session_id := "s1", now_ts := "ts4" }

/-- The world after the first three events of the C8 scenario were logged. -/
def c8World : TrackerWorld :=
  { log_lines := [render_record c8r1, render_record c8r2, render_record c8r3]
    stats_file := none
    analysis_file := none
    log_writable := true
    stats_writable := true
    analysis_writable := true }

/-- C8 counterexample: for the failing fourth invocation of tool mcp__a__x
after the event history failure, failure, success, the tracker does emit the
diagnostic warning (three of the last ten log lines mention the tool with
FAILURE), yet the 3 most recent log entries for that tool are not all
failures, whether or not the current entry is counted; so the warning is not
emitted if and only if the 3 most recent entries for the tool are failures. -/
theorem alert_fires_without_three_recent_tool_failures :
    warnOf (tracker_main 6 "mcp__a__x" "false" 300 "None" "s1" "ts4" "iso4" c8World)
        ≠ []
    ∧ last_three_for_tool_all_failures [c8r1, c8r2, c8r3, c8r4] "mcp__a__x" = false
    ∧ last_three_for_tool_all_failures [c8r1, c8r2, c8r3] "mcp__a__x" = false := by
  refine ⟨?_, by decide, by decide⟩
  decide

theorem alert_warnings_ne_nil (success : Bool) (ls : List String)
    (af : Option McpRecommendations) (tn : String) :
    alert_warnings success ls af tn ≠ []
      ↔ (success = false ∧ 3 ≤ recent_failure_count ls tn) := by
  unfold alert_warnings
  cases success
  · by_cases hcnt : 3 ≤ recent_failure_count ls tn
    · simp only [Bool.false_eq_true, if_false, ge_iff_le, hcnt, if_true]
      cases af with
      | none => simp [hcnt]
      | some an =>
          cases hf : List.find? (fun u => u.tool == tn) an.unreliable_tools <;>
            simp [hf, hcnt]
    · simp [hcnt]
  · simp

/-- C8 amended: on a well-formed invocation of a tracked tool with all file
writes succeeding, a diagnostic warning is emitted iff the invocation failed
and at least 3 of the 10 most recent log lines (the current entry included)
contain the tool name and FAILURE as substrings — a count over the mixed
last-10 window of all tools, not over the 3 most recent entries of this
tool. -/
theorem alert_condition (w : TrackerWorld) (tool_name success_arg : String)
    (rt : ℚ) (error_arg session_id ts iso : String)
    (hlog : w.log_writable = true) (hstats : w.stats_writable = true)
    (hana : w.analysis_writable = true)
    (hmcp : pyStartsWith tool_name "mcp__" = true) :
    warnOf (tracker_main 6 tool_name success_arg rt error_arg session_id ts iso w) ≠ []
      ↔ ((pyLower success_arg == "true") = false
        ∧ 3 ≤ recent_failure_count
            (w.log_lines ++ [log_entry ts session_id tool_name
              (pyLower success_arg == "true") rt
              (if error_arg = "None" then "" else error_arg)]) tool_name) := by
  by_cases hmod : (w.log_lines.length + 1) % 10 = 0 <;>
    simp [tracker_main, hlog, hstats, hana, hmcp, hmod, warnOf,
      -List.append_assoc] <;>
    simpa using alert_warnings_ne_nil (pyLower success_arg == "true") _ _ _

def c8WitnessWorld : TrackerWorld :=
  { log_lines := []
    stats_file := none
    analysis_file := none
    log_writable := true
    stats_writable := true
    analysis_writable := true }

/-- Witness for the amended C8 at a concrete world and invocation. -/
theorem alert_condition_witness :
    warnOf (tracker_main 6 "mcp__a__x" "false" 300 "None" "s1" "tsW" "isoW"
        c8WitnessWorld) ≠ []
      ↔ ((pyLower "false" == "true") = false
        ∧ 3 ≤ recent_failure_count
            (c8WitnessWorld.log_lines ++ [log_entry "tsW" "s1" "mcp__a__x"
              (pyLower "false" == "true") 300
              (if "None" = "None" then "" else "None")]) "mcp__a__x") :=
  alert_condition c8WitnessWorld "mcp__a__x" "false" 300 "None" "s1" "tsW" "isoW"
    rfl rfl rfl (by decide)

end WMTrack
